import Mathlib

/-!
Shallow embedding of `vnpy_rest/rest_client.py`: the `Request` / `Response`
value types, the `RestClient` dispatch engine (`init`, `sign`,
`_make_full_url`, `_get_response`, `_process_request`, `request`,
`add_request`, `start`) and the worker-bootstrap helpers
(`start_event_loop`).

Modelling conventions:
* Python exceptions become an explicit `Exc` type; fallible steps return
  `Except Exc _`.
* The effects that are external to the file (the `aiohttp` network call,
  `json.loads`, and the behaviour of the dynamically-dispatched `self.sign`
  of a subclass) are supplied by an `Env` record.  `Env.signExc req = none`
  means `sign` behaves as the base-class implementation (the identity,
  returning its argument object unchanged); `some e` means a subclass
  `sign` raised `e`.
* A user-supplied hook (success callback, `on_failed`, `on_error`) is
  modelled by its observable behaviour when invoked: `Hook.raises = none`
  means it returns normally, `some e` means it raises `e`.  Invocations of
  hooks are recorded as `Event`s, in order.
* Python mutates the `Request` object in place (the response is attached to
  the object `sign` returned, which for the identity sign is the original
  object); the embedding passes the updated `Request` value along instead.
* Machine details of the event loop world (`start`) are modelled by a
  `World` holding, for each event loop created so far, whether it is
  running, plus the number of background threads started.
-/

set_option linter.unusedVariables false
set_option linter.unusedTactic false

namespace VnpyRest

/-- A Python exception value.  `typeError` is the `TypeError` raised when a
`None` callback is called; `user s` is any other exception, identified by a
message. -/
inductive Exc where
  | typeError : Exc
  | user (msg : String) : Exc
  deriving DecidableEq, Repr

/-- Rendering of an exception (stands for `str(exception_type)` /
the formatted traceback in diagnostics). -/
def Exc.str : Exc → String
  | Exc.typeError => "TypeError"
  | Exc.user msg => msg

/-- Observable behaviour of a user-supplied hook when it is invoked:
`raises = none` means the hook returns normally, `raises = some e` means
the hook raises `e`. -/
structure Hook where
  raises : Option Exc
  deriving DecidableEq, Repr

/-- Model of `Response` from rest_client.py: status code and raw text body.
(`Response.json` is the lazy decode; it is environment-supplied, see
`Env.decode`.) -/
structure Response where
  status_code : Nat
  text : String
  deriving DecidableEq, Repr

/-- Model of `Request` from rest_client.py.  Field order follows `Request.__init__`
(`method, path, params, data, headers, callback, on_failed, on_error,
extra`), plus the initially-`None` `response` field. -/
structure Request where
  method : String
  path : String
  params : Option (List (String × String))
  data : Option String
  headers : Option (List (String × String))
  callback : Option Hook
  on_failed : Option Hook
  on_error : Option Hook
  extra : Option String
  response : Option Response
  deriving DecidableEq, Repr

/-- A single quote character (used by the Python `str()` rendering of a
dict). -/
def squote : String := String.singleton (Char.ofNat 39)

/-- Python rendering of one dict entry: quoted key, colon, quoted value. -/
def pyStrPair (kv : String × String) : String :=
  squote ++ kv.1 ++ squote ++ ": " ++ squote ++ kv.2 ++ squote

/-- Python rendering of an optional dict: the word None, or the quoted entries between braces. -/
def pyStrDict : Option (List (String × String)) → String
  | none => "None"
  | some l => "\x7b" ++ String.intercalate ", " (l.map pyStrPair) ++ "\x7d"

/-- Python `str()` of the optional request body. -/
def pyStrData : Option String → String
  | none => "None"
  | some s => s

/-- The format template of `Request.__str__`:
`"request : \x7b\x7d \x7b\x7d because \x7b\x7d: \nheaders: \x7b\x7d\nparams: \x7b\x7d\ndata: \x7b\x7d\nresponse:\x7b\x7d\n"`
applied to its seven arguments. -/
def requestTemplate (method path status_code headers params data text : String) :
    String :=
  "request : " ++ method ++ " " ++ path ++ " because " ++ status_code ++ ": \n" ++
  "headers: " ++ headers ++ "\n" ++
  "params: " ++ params ++ "\n" ++
  "data: " ++ data ++ "\n" ++
  "response:" ++ text ++ "\n"

/-- Model of `Request.__str__`: shows `"terminated"` as the status while no response
is attached, and the numeric status code afterwards; the final slot is `""`
while no response is attached and the response text afterwards. -/
def Request.str (r : Request) : String :=
  let status_code : String :=
    match r.response with
    | none => "terminated"
    | some resp => toString resp.status_code
  requestTemplate r.method r.path status_code
    (pyStrDict r.headers) (pyStrDict r.params) (pyStrData r.data)
    (match r.response with
     | none => ""
     | some resp => resp.text)

/-- Model of `RestClient` instance state: `__init__` fields (`url_base`, `proxy`,
`session`, `loop`).  The aiohttp `ClientSession` is abstracted to the flag
"has been created"; `loop` holds the index of the event loop assigned by
`start`, if any. -/
structure RestClient where
  url_base : String
  proxy : Option String
  session : Bool
  loop : Option Nat
  deriving DecidableEq, Repr

/-- Model of `RestClient.__init__`: empty base url, no proxy, no session, no loop. -/
def RestClient.initial : RestClient :=
  { url_base := "", proxy := none, session := false, loop := none }

/-- Model of `RestClient.init`: store the base url; set the proxy to
`http://host:port` when both `proxy_host` is truthy (non-empty) and
`proxy_port` is truthy (non-zero). -/
def RestClient.init (c : RestClient) (url_base : String)
    (proxy_host : String) (proxy_port : Nat) : RestClient :=
  let c := { c with url_base := url_base }
  if proxy_host ≠ "" ∧ proxy_port ≠ 0 then
    { c with proxy := some ("http://" ++ proxy_host ++ ":" ++ toString proxy_port) }
  else
    c

/-- Model of `RestClient._make_full_url`: plain string concatenation of the base url
and the path. -/
def RestClient.make_full_url (c : RestClient) (path : String) : String :=
  c.url_base ++ path

/-- Model of `RestClient.sign`, the base-class default: return the request itself. -/
def RestClient.sign (c : RestClient) (request : Request) : Request :=
  request

/-- The environment supplying the externally-determined outcomes of one
dispatch: the (possibly overridden) `self.sign` effect, the aiohttp network
interaction (method, full url, headers, params, data, proxy ↦ status code
and body text, or an exception), and `json.loads`. -/
structure Env where
  signExc : Request → Option Exc
  net : String → String → Option (List (String × String)) →
        Option (List (String × String)) → Option String → Option String →
        Except Exc (Nat × String)
  decode : String → Except Exc String

/-- Model of `RestClient._get_response`: sign, resolve the full url, lazily create
the session, perform the network call, build the `Response` and attach it
to the request.  Returns the response together with the request it was
attached to, or the exception raised, plus the updated client state. -/
def RestClient.get_response (c : RestClient) (env : Env) (request : Request) :
    Except Exc (Response × Request) × RestClient :=
  match env.signExc request with
  | some e => (Except.error e, c)
  | none =>
    let url := c.make_full_url request.path
    let c2 := if c.session then c else { c with session := true }
    match env.net request.method url request.headers request.params
        request.data c.proxy with
    | Except.error e => (Except.error e, c2)
    | Except.ok st =>
      let response : Response := { status_code := st.1, text := st.2 }
      (Except.ok (response, { request with response := some response }), c2)

/-- One recorded hook invocation of the dispatch engine, with the arguments
the hook received. -/
inductive Event where
  | successCB (body : String) (req : Request)
  | requestOnFailed (status_code : Nat) (req : Request)
  | clientOnFailed (status_code : Nat) (req : Request)
  | requestOnError (e : Exc) (req : Request)
  | clientOnError (e : Exc) (req : Request)
  deriving DecidableEq, Repr

/-- The `except`-clause of `_process_request`: route the exception to the
own `on_error` hook of the request when present, else to the client default
`on_error`.  The client default never raises (it guards its body with
`try/except`); a raising per-request hook raises out of the `except`
clause, so its exception escapes (second component). -/
def Request.errorEvents (request : Request) (e : Exc) :
    List Event × Option Exc :=
  match request.on_error with
  | some hook => ([Event.requestOnError e request], hook.raises)
  | none => ([Event.clientOnError e request], none)

/-- Outcome of one run of `_process_request`: the hook invocations in
order, the exception escaping the coroutine (if any), the updated client
state, and the final state of the request object. -/
structure ProcResult where
  events : List Event
  escaped : Option Exc
  client : RestClient
  req : Request
  deriving Repr

/-- Model of `RestClient._process_request`: run `_get_response` inside `try`; on a
2xx status decode the body and call the success callback (a `None`
callback raises `TypeError`; the decode happens first, since arguments are
evaluated before the call); on a non-2xx status call the per-request
`on_failed` if present, else the client default `on_failed` (which never
raises).  Any exception raised inside the `try` block — signing, network,
decode, the success callback, or a failure hook — lands in the single
`except` clause, which routes it to the error path (`Request.errorEvents`). -/
def RestClient.process_request (c : RestClient) (env : Env)
    (request : Request) : ProcResult :=
  match c.get_response env request with
  | (Except.error e, c2) =>
    let p := request.errorEvents e
    { events := p.1, escaped := p.2, client := c2, req := request }
  | (Except.ok rr, c2) =>
    let response := rr.1
    let request2 := rr.2
    let status_code := response.status_code
    if status_code / 100 = 2 then
      match env.decode response.text with
      | Except.error e =>
        let p := request2.errorEvents e
        { events := p.1, escaped := p.2, client := c2, req := request2 }
      | Except.ok body =>
        match request2.callback with
        | none =>
          let p := request2.errorEvents Exc.typeError
          { events := p.1, escaped := p.2, client := c2, req := request2 }
        | some cb =>
          match cb.raises with
          | none =>
            { events := [Event.successCB body request2], escaped := none,
              client := c2, req := request2 }
          | some e =>
            let p := request2.errorEvents e
            { events := Event.successCB body request2 :: p.1,
              escaped := p.2, client := c2, req := request2 }
    else
      match request2.on_failed with
      | some hook =>
        match hook.raises with
        | none =>
          { events := [Event.requestOnFailed status_code request2],
            escaped := none, client := c2, req := request2 }
        | some e =>
          let p := request2.errorEvents e
          { events := Event.requestOnFailed status_code request2 :: p.1,
            escaped := p.2, client := c2, req := request2 }
      | none =>
        { events := [Event.clientOnFailed status_code request2],
          escaped := none, client := c2, req := request2 }

/-- Model of `RestClient.add_request`: construct the `Request` (with all the hooks),
hand `_process_request` to the worker loop, and return the request object.
The embedding also returns the eventual processing outcome. -/
def RestClient.add_request (c : RestClient) (env : Env)
    (method path : String) (callback : Option Hook)
    (params : Option (List (String × String))) (data : Option String)
    (headers : Option (List (String × String)))
    (on_failed on_error : Option Hook) (extra : Option String) :
    Request × ProcResult :=
  let request : Request :=
    { method := method, path := path, params := params, data := data,
      headers := headers, callback := callback, on_failed := on_failed,
      on_error := on_error, extra := extra, response := none }
  (request, c.process_request env request)

/-- Outcome of the synchronous `RestClient.request`: the value returned to
the calling thread (`fut.result()` returns the `Response` or re-raises the
exception), the updated client, and the final state of the internally
constructed request object. -/
structure SyncResult where
  result : Except Exc Response
  client : RestClient
  req : Request
  deriving Repr

/-- Model of `RestClient.request` (synchronous path): construct a hook-less
`Request`, run `_get_response` on the worker, and return its result —
the `Response` on completion (whatever the status code), or the raised
exception re-raised unchanged in the calling thread. -/
def RestClient.request (c : RestClient) (env : Env) (method path : String)
    (params : Option (List (String × String))) (data : Option String)
    (headers : Option (List (String × String))) : SyncResult :=
  let request : Request :=
    { method := method, path := path, params := params, data := data,
      headers := headers, callback := none, on_failed := none,
      on_error := none, extra := none, response := none }
  match c.get_response env request with
  | (Except.ok rr, c2) => { result := Except.ok rr.1, client := c2, req := rr.2 }
  | (Except.error e, c2) => { result := Except.error e, client := c2, req := request }

/-- The process world for the worker bootstrap: one entry per event loop
created so far (`true` = running), and the number of background threads
started. -/
structure World where
  loops : List Bool
  threads : Nat
  deriving DecidableEq, Repr

/-- Model of `asyncio.new_event_loop`: create a fresh, not-yet-running loop. -/
def new_event_loop (w : World) : Nat × World :=
  (w.loops.length, { w with loops := w.loops ++ [false] })

/-- Model of `asyncio.get_running_loop`: return the loop running in the *current*
thread, or raise `RuntimeError` when the current thread runs none. -/
def get_running_loop (current : Option Nat) : Except Exc Nat :=
  match current with
  | some l => Except.ok l
  | none => Except.error (Exc.user "RuntimeError")

/-- Model of `start_event_loop`: if the loop is not running, start a daemon thread
executing `run_event_loop` on it (the loop becomes running). -/
def start_event_loop (l : Nat) (w : World) : World :=
  if w.loops.getD l false then w
  else { loops := w.loops.set l true, threads := w.threads + 1 }

/-- Model of `RestClient.start`: `self.loop = get_running_loop()` — falling back to
`new_event_loop()` on `RuntimeError` — then `start_event_loop(self.loop)`.
`current` is the loop running in the calling thread, if any;
`session_number` is accepted and ignored, as in the source. -/
def RestClient.start (c : RestClient) (session_number : Nat)
    (current : Option Nat) (w : World) : RestClient × World :=
  match get_running_loop current with
  | Except.ok l => ({ c with loop := some l }, start_event_loop l w)
  | Except.error _ =>
    let lw := new_event_loop w
    ({ c with loop := some lw.1 }, start_event_loop lw.1 lw.2)

/-- Is the event an invocation of a success callback? -/
def isSuccessEv : Event → Bool
  | Event.successCB _ _ => true
  | _ => false

/-- Is the event an invocation of the failure path (per-request or client
default `on_failed`)? -/
def isFailedEv : Event → Bool
  | Event.requestOnFailed _ _ => true
  | Event.clientOnFailed _ _ => true
  | _ => false

/-- Is the event an invocation of the error path (per-request or client
default `on_error`)? -/
def isErrorEv : Event → Bool
  | Event.requestOnError _ _ => true
  | Event.clientOnError _ _ => true
  | _ => false

/-- Number of success-callback invocations in a trace. -/
def countSuccess (evs : List Event) : Nat := (evs.filter isSuccessEv).length

/-- Number of failure-path invocations in a trace. -/
def countFailed (evs : List Event) : Nat := (evs.filter isFailedEv).length

/-- Number of error-path invocations in a trace. -/
def countError (evs : List Event) : Nat := (evs.filter isErrorEv).length

/-- The failure-path invocations of a trace, in order. -/
def failedEvents (evs : List Event) : List Event := evs.filter isFailedEv

/-- The event trace of one `_process_request` run. -/
def procEvents (c : RestClient) (env : Env) (request : Request) : List Event :=
  (c.process_request env request).events

/-- A concrete client, as produced by `init("https://api.example.com")`. -/
def exClient : RestClient := RestClient.initial.init "https://api.example.com" "" 0

/-- A concrete request skeleton carrying the given hooks. -/
def exReq (callback on_failed on_error : Option Hook) : Request :=
  { method := "GET", path := "/ping", params := none, data := none,
    headers := none, callback := callback, on_failed := on_failed,
    on_error := on_error, extra := none, response := none }

/-- Environment with identity sign, a network call completing with the
given status and text, and a decode returning the given body. -/
def exEnv (status : Nat) (text body : String) : Env :=
  { signExc := fun _ => none,
    net := fun _ _ _ _ _ _ => Except.ok (status, text),
    decode := fun _ => Except.ok body }

/-- Environment whose network call raises `e`. -/
def exEnvNetErr (e : Exc) : Env :=
  { signExc := fun _ => none,
    net := fun _ _ _ _ _ _ => Except.error e,
    decode := fun _ => Except.ok "" }

/-- Environment whose (subclass) sign raises `e`. -/
def exEnvSignErr (e : Exc) : Env :=
  { signExc := fun _ => some e,
    net := fun _ _ _ _ _ _ => Except.ok (200, "ok"),
    decode := fun _ => Except.ok "" }

/-- Environment whose body decode raises `e`. -/
def exEnvDecodeErr (status : Nat) (text : String) (e : Exc) : Env :=
  { signExc := fun _ => none,
    net := fun _ _ _ _ _ _ => Except.ok (status, text),
    decode := fun _ => Except.error e }

/-! ## Claim theorems -/

/-- C1 counterexample: the network call completes with status 404 and the
own `on_failed` hook of the request raises.  The failure path fires (once),
and the exception of the hook then lands in the top-level `except` clause, so the
error path (client default `on_error`) fires as well: two of the three
outcome paths are invoked for one request, refuting "exactly one of the
three outcome paths is invoked". -/
theorem two_outcome_paths_fire_cex :
    let r := exClient.process_request (exEnv 404 "not found" "")
      (exReq none (some { raises := some (Exc.user "hookboom") }) none)
    countFailed r.events = 1 ∧ countError r.events = 1 :=
  ⟨rfl, rfl⟩

/-- C1 (amended): per request, the success and failure paths together fire
at most once and the error path fires at most once, with at least one hook
firing; two paths fire only when the invoked success/failure hook itself
raised, in which case the error path fires exactly once in addition.  In
particular, when signing, the network call, or the body decode raises, the
error path alone fires, exactly once, and no other hook fires. -/
theorem process_request_single_path_unless_hook_raises
    (c : RestClient) (env : Env) (request : Request) :
    (1 ≤ (procEvents c env request).length ∧
      countSuccess (procEvents c env request)
        + countFailed (procEvents c env request) ≤ 1 ∧
      countError (procEvents c env request) ≤ 1 ∧
      ((procEvents c env request).length = 2 →
        countSuccess (procEvents c env request)
          + countFailed (procEvents c env request) = 1 ∧
        countError (procEvents c env request) = 1)) ∧
    (∀ e, env.signExc request = some e →
      countError (procEvents c env request) = 1 ∧
      countSuccess (procEvents c env request) = 0 ∧
      countFailed (procEvents c env request) = 0) ∧
    (∀ e, env.signExc request = none →
      env.net request.method (c.make_full_url request.path) request.headers
        request.params request.data c.proxy = Except.error e →
      countError (procEvents c env request) = 1 ∧
      countSuccess (procEvents c env request) = 0 ∧
      countFailed (procEvents c env request) = 0) ∧
    (∀ status text e, env.signExc request = none →
      env.net request.method (c.make_full_url request.path) request.headers
        request.params request.data c.proxy = Except.ok (status, text) →
      status / 100 = 2 → env.decode text = Except.error e →
      countError (procEvents c env request) = 1 ∧
      countSuccess (procEvents c env request) = 0 ∧
      countFailed (procEvents c env request) = 0) := by
  refine ⟨?_, ?_, ?_, ?_⟩
  · unfold procEvents RestClient.process_request RestClient.get_response
      Request.errorEvents
    split
    all_goals (try dsimp only)
    all_goals (try split)
    all_goals (try dsimp only)
    all_goals (try split)
    all_goals (try dsimp only)
    all_goals (try split)
    all_goals (try dsimp only)
    all_goals (try split)
    all_goals (try dsimp only)
    all_goals (try split)
    all_goals (try dsimp only)
    all_goals (try split)
    all_goals (try dsimp only)
    all_goals (try split)
    all_goals simp [countSuccess, countFailed, countError, isSuccessEv,
      isFailedEv, isErrorEv]
  · intro e hsign
    unfold procEvents RestClient.process_request RestClient.get_response
      Request.errorEvents
    rw [hsign]
    cases h : request.on_error <;>
      simp [h, countSuccess, countFailed, countError, isSuccessEv,
        isFailedEv, isErrorEv]
  · intro e hsign hnet
    unfold procEvents RestClient.process_request RestClient.get_response
      Request.errorEvents
    rw [hsign]
    dsimp only
    rw [hnet]
    cases h : request.on_error <;>
      simp [h, countSuccess, countFailed, countError, isSuccessEv,
        isFailedEv, isErrorEv]
  · intro status text e hsign hnet hstat hdec
    unfold procEvents RestClient.process_request RestClient.get_response
      Request.errorEvents
    rw [hsign]
    dsimp only
    rw [hnet]
    dsimp only
    rw [if_pos hstat, hdec]
    cases h : request.on_error <;>
      simp [h, countSuccess, countFailed, countError, isSuccessEv,
        isFailedEv, isErrorEv]

/-- Witness for C1 (amended): a raising sign hook routes to the error path
alone. -/
theorem process_request_single_path_witness :
    countError (procEvents exClient (exEnvSignErr (Exc.user "sigboom"))
      (exReq none none none)) = 1 ∧
    countSuccess (procEvents exClient (exEnvSignErr (Exc.user "sigboom"))
      (exReq none none none)) = 0 ∧
    countFailed (procEvents exClient (exEnvSignErr (Exc.user "sigboom"))
      (exReq none none none)) = 0 :=
  (process_request_single_path_unless_hook_raises exClient
    (exEnvSignErr (Exc.user "sigboom")) (exReq none none none)).2.1
    (Exc.user "sigboom") rfl

/-- C2 counterexample: the network call completes with status 200 and the
body decodes, but the success callback itself raises; `_process_request`
routes the exception to the error path, so the error hook (client default
`on_error`) fires — refuting "invokes neither the failure hook nor the
error hook". -/
theorem success_callback_raises_error_hook_cex :
    let r := exClient.process_request (exEnv 200 "\x7bok\x7d" "body")
      (exReq (some { raises := some (Exc.user "cbboom") }) none none)
    countSuccess r.events = 1 ∧ countError r.events = 1 :=
  ⟨rfl, rfl⟩

/-- C2 (amended): for every request carrying a success callback whose
network call completes with a status in 200–299 and whose body decodes,
the success callback is invoked exactly once, with the decoded body and
the request (bearing the attached response) as arguments; the failure hook
never fires; and no error hook fires unless the callback itself raises, in
which case the error path fires exactly once in addition. -/
theorem success_path_2xx (c : RestClient) (env : Env) (request : Request)
    (status : Nat) (text body : String) (cb : Hook)
    (hsign : env.signExc request = none)
    (hnet : env.net request.method (c.make_full_url request.path)
      request.headers request.params request.data c.proxy
      = Except.ok (status, text))
    (hstatus : 200 ≤ status ∧ status ≤ 299)
    (hdecode : env.decode text = Except.ok body)
    (hcb : request.callback = some cb) :
    (procEvents c env request).head?
      = some (Event.successCB body
          { request with response := some { status_code := status, text := text } }) ∧
    countSuccess (procEvents c env request) = 1 ∧
    countFailed (procEvents c env request) = 0 ∧
    (cb.raises = none → procEvents c env request
      = [Event.successCB body
          { request with response := some { status_code := status, text := text } }]) ∧
    (∀ e, cb.raises = some e → countError (procEvents c env request) = 1) := by
  have hstat : status / 100 = 2 := by omega
  unfold procEvents RestClient.process_request RestClient.get_response
    Request.errorEvents
  rw [hsign]
  dsimp only
  rw [hnet]
  dsimp only
  rw [if_pos hstat, hdecode]
  dsimp only
  rw [hcb]
  cases hr : cb.raises with
  | none =>
    simp [hr, countSuccess, countFailed, countError, isSuccessEv,
      isFailedEv, isErrorEv]
  | some e =>
    cases ho : request.on_error <;>
      simp [hr, ho, countSuccess, countFailed, countError, isSuccessEv,
        isFailedEv, isErrorEv]

/-- Witness for C2 (amended): a 200 response whose body decodes and whose
callback returns normally yields exactly the single success invocation. -/
theorem success_path_2xx_witness :
    procEvents exClient (exEnv 200 "\x7bok\x7d" "body")
      (exReq (some { raises := none }) none none)
      = [Event.successCB "body"
          { exReq (some { raises := none }) none none with
            response := some { status_code := 200, text := "\x7bok\x7d" } }] :=
  (success_path_2xx exClient (exEnv 200 "\x7bok\x7d" "body")
    (exReq (some { raises := none }) none none) 200 "\x7bok\x7d" "body"
    { raises := none } rfl rfl (by omega) rfl rfl).2.2.2.1 rfl

/-- C3: for every request whose network call completes with a status
outside 200–299, exactly one of the per-request `on_failed` hook and the
client default `on_failed` fires — the per-request hook when present, else
the client default — exactly once, with the status code and the request
(bearing the attached response) as arguments, and the success callback is
never invoked. -/
theorem failure_path_non2xx (c : RestClient) (env : Env) (request : Request)
    (status : Nat) (text : String)
    (hsign : env.signExc request = none)
    (hnet : env.net request.method (c.make_full_url request.path)
      request.headers request.params request.data c.proxy
      = Except.ok (status, text))
    (hstatus : ¬(200 ≤ status ∧ status ≤ 299)) :
    countSuccess (procEvents c env request) = 0 ∧
    countFailed (procEvents c env request) = 1 ∧
    (∀ h, request.on_failed = some h →
      failedEvents (procEvents c env request)
        = [Event.requestOnFailed status
            { request with response := some { status_code := status, text := text } }]) ∧
    (request.on_failed = none →
      failedEvents (procEvents c env request)
        = [Event.clientOnFailed status
            { request with response := some { status_code := status, text := text } }]) := by
  have hstat : ¬ status / 100 = 2 := by omega
  unfold procEvents RestClient.process_request RestClient.get_response
    Request.errorEvents
  rw [hsign]
  dsimp only
  rw [hnet]
  dsimp only
  rw [if_neg hstat]
  cases hf : request.on_failed with
  | none =>
    simp [failedEvents, countSuccess, countFailed, isSuccessEv,
      isFailedEv, isErrorEv]
  | some hook =>
    cases hr : hook.raises with
    | none =>
      simp [hr, failedEvents, countSuccess, countFailed, isSuccessEv,
        isFailedEv, isErrorEv]
    | some e =>
      cases ho : request.on_error <;>
        simp [hr, ho, failedEvents, countSuccess, countFailed, isSuccessEv,
          isFailedEv, isErrorEv]

/-- Witness for C3: a 404 completion on a request with no hooks of its own
fires the client default `on_failed` exactly once. -/
theorem failure_path_non2xx_witness :
    failedEvents (procEvents exClient (exEnv 404 "not found" "")
      (exReq none none none))
      = [Event.clientOnFailed 404
          { exReq none none none with
            response := some { status_code := 404, text := "not found" } }] :=
  (failure_path_non2xx exClient (exEnv 404 "not found" "")
    (exReq none none none) 404 "not found" rfl rfl (by omega)).2.2.2 rfl

/-- C4 counterexample: the network call raises and the request carries its
own `on_error` hook, which itself raises.  The hook is invoked inside the
`except` clause of `_process_request`, so its exception is not caught by
anything: it escapes the per-request execution unit — refuting "no
exception ever escapes `_process_request`". -/
theorem on_error_hook_exception_escapes_cex :
    (exClient.process_request (exEnvNetErr (Exc.user "ConnectionError"))
      (exReq none none (some { raises := some (Exc.user "errboom") }))).escaped
      = some (Exc.user "errboom") :=
  rfl

/-- The error path lets no exception escape when the per-request
`on_error` hook is absent or returns normally (the client default
`on_error` never raises). -/
theorem errorEvents_escape_none (request : Request)
    (he : ∀ h, request.on_error = some h → h.raises = none) (e : Exc) :
    (request.errorEvents e).2 = none := by
  unfold Request.errorEvents
  cases ho : request.on_error with
  | none => rfl
  | some hook => simpa using he hook ho

/-- When `_get_response` completes, the request it returns is the input
request with the response attached. -/
theorem get_response_ok_req (c : RestClient) (env : Env) (request : Request)
    (rr : Response × Request) (c2 : RestClient)
    (h : c.get_response env request = (Except.ok rr, c2)) :
    rr.2 = { request with response := some rr.1 } := by
  unfold RestClient.get_response at h
  cases hs : env.signExc request with
  | some e => rw [hs] at h; simp at h
  | none =>
    rw [hs] at h
    dsimp only at h
    cases hn : env.net request.method (c.make_full_url request.path)
        request.headers request.params request.data c.proxy with
    | error e => rw [hn] at h; simp at h
    | ok st =>
      rw [hn] at h
      dsimp only at h
      simp only [Prod.mk.injEq, Except.ok.injEq] at h
      obtain ⟨h1, -⟩ := h
      rw [← h1]

/-- C4 (amended): an exception raised inside the success callback or the
failure hook is caught by the top-level `try/except` of the per-request
execution unit and routed to the error path, and the client default
handlers never re-raise; hence no exception escapes `_process_request`
whenever the per-request `on_error` hook — which runs inside the
`except` clause, outside any further protection — returns normally or is
absent. -/
theorem callback_exceptions_caught (c : RestClient) (env : Env)
    (request : Request)
    (he : ∀ h, request.on_error = some h → h.raises = none) :
    (c.process_request env request).escaped = none := by
  unfold RestClient.process_request
  split
  · exact errorEvents_escape_none request he _
  · rename_i rr c2 heq
    have hreq : rr.2 = { request with response := some rr.1 } :=
      get_response_ok_req c env request rr c2 heq
    dsimp only
    rw [hreq]
    split
    · split
      · exact errorEvents_escape_none { request with response := some rr.1 } he _
      · split
        · exact errorEvents_escape_none { request with response := some rr.1 } he _
        · split
          · rfl
          · exact errorEvents_escape_none { request with response := some rr.1 } he _
    · split
      · split
        · rfl
        · exact errorEvents_escape_none { request with response := some rr.1 } he _
      · rfl

/-- Witness for C4 (amended): a request whose failure hook raises but whose
`on_error` slot is empty lets no exception escape — the raising failure
hook is caught and routed to the client default `on_error`. -/
theorem callback_exceptions_caught_witness :
    (exClient.process_request (exEnv 404 "not found" "")
      (exReq none (some { raises := some (Exc.user "hookboom") }) none)).escaped
      = none :=
  callback_exceptions_caught exClient (exEnv 404 "not found" "")
    (exReq none (some { raises := some (Exc.user "hookboom") }) none)
    (fun h hh => by simp [exReq] at hh)

/-- The final request state of `_process_request` is determined by
`_get_response` alone: the request with the response attached on
completion, the untouched request when `_get_response` raised. -/
theorem process_request_req_eq (c : RestClient) (env : Env)
    (request : Request) :
    (c.process_request env request).req
      = (match (c.get_response env request).1 with
         | Except.ok rr => rr.2
         | Except.error _ => request) := by
  unfold RestClient.process_request Request.errorEvents
  cases hg : c.get_response env request with
  | mk res c2 =>
    cases res with
    | error e => simp
    | ok rr =>
      dsimp only
      split
      all_goals (try dsimp only)
      all_goals (try split)
      all_goals (try dsimp only)
      all_goals (try split)
      all_goals (try dsimp only)
      all_goals (try split)
      all_goals simp

/-- C6: with the base-class identity signing behaviour, identical inputs
(method, path, params, data, headers) and identical server behaviour (one
shared `Env`), the `Response` returned synchronously by `request(...)`
equals the `Response` the asynchronous `add_request(...)` path attaches to
its request; and an exception raised during the synchronous call is
returned to the calling thread exactly as raised by the underlying
`_get_response` (in which case the asynchronous twin attaches no
response either). -/
theorem sync_async_response_agree (c : RestClient) (env : Env)
    (method path : String) (params : Option (List (String × String)))
    (data : Option String) (headers : Option (List (String × String)))
    (callback on_failed on_error : Option Hook) (extra : Option String)
    (hsign : ∀ r, env.signExc r = none) :
    (∀ resp,
      (c.request env method path params data headers).result = Except.ok resp →
      ((c.add_request env method path callback params data headers
        on_failed on_error extra).2).req.response = some resp) ∧
    (∀ e,
      (c.request env method path params data headers).result = Except.error e →
      ((c.add_request env method path callback params data headers
        on_failed on_error extra).2).req.response = none ∧
      (c.get_response env
        { method := method, path := path, params := params, data := data,
          headers := headers, callback := none, on_failed := none,
          on_error := none, extra := none, response := none }).1
        = Except.error e) := by
  unfold RestClient.add_request
  rw [process_request_req_eq]
  unfold RestClient.request RestClient.get_response
  simp only [hsign]
  cases hn : env.net method (c.make_full_url path) headers params data c.proxy with
  | error e => simp
  | ok st => simp

/-- Witness for C6: with a 200/`ok` server, the asynchronous twin of a
synchronous call ends with the same `Response` attached. -/
theorem sync_async_response_agree_witness :
    ((exClient.add_request (exEnv 200 "ok" "body") "GET" "/ping" none none
      none none none none none).2).req.response
      = some { status_code := 200, text := "ok" } :=
  (sync_async_response_agree exClient (exEnv 200 "ok" "body") "GET" "/ping"
    none none none none none none none (fun _ => rfl)).1
    { status_code := 200, text := "ok" } rfl

/-- C10: the synchronous path constructs a `Request` carrying no hooks at
all, and returns the `Response` of a completed call as an ordinary value with no
failure classification — whatever the status code, 2xx or not — raising
nothing; the response is attached to the internal request before the value
is returned.  (`request` runs `_get_response` directly, which invokes no
callback or hook.) -/
theorem sync_request_no_hooks (c : RestClient) (env : Env)
    (method path : String) (params : Option (List (String × String)))
    (data : Option String) (headers : Option (List (String × String)))
    (status : Nat) (text : String)
    (hsign : ∀ r, env.signExc r = none)
    (hnet : env.net method (c.make_full_url path) headers params data c.proxy
      = Except.ok (status, text)) :
    (c.request env method path params data headers).result
      = Except.ok { status_code := status, text := text } ∧
    (c.request env method path params data headers).req.callback = none ∧
    (c.request env method path params data headers).req.on_failed = none ∧
    (c.request env method path params data headers).req.on_error = none ∧
    (c.request env method path params data headers).req.response
      = some { status_code := status, text := text } := by
  unfold RestClient.request RestClient.get_response
  simp only [hsign]
  rw [hnet]
  simp

/-- Witness for C10: a 404 completion is returned by the synchronous path
as an ordinary `Response` value, attached to the hook-less internal
request. -/
theorem sync_request_no_hooks_witness :
    (exClient.request (exEnv 404 "not found" "") "GET" "/ping"
      none none none).result
      = Except.ok { status_code := 404, text := "not found" } ∧
    (exClient.request (exEnv 404 "not found" "") "GET" "/ping"
      none none none).req.response
      = some { status_code := 404, text := "not found" } := by
  have h := sync_request_no_hooks exClient (exEnv 404 "not found" "") "GET"
    "/ping" none none none 404 "not found" (fun _ => rfl) rfl
  exact ⟨h.1, h.2.2.2.2⟩

/-- C5: the claim says `start()` is idempotent, with at most one event loop
and one background thread per instance.  The code disagrees: in a plain
calling thread `get_running_loop()` always raises `RuntimeError` (the
loop of the client runs in *another* thread), so every call to `start()`
creates a fresh, not-running event loop and `start_event_loop` then spawns
a fresh background thread for it.  Two consecutive `start()` calls on a
fresh client leave two created loops and two started threads. -/
theorem start_twice_creates_two_loops :
    let w0 : World := { loops := [], threads := 0 }
    let s1 := RestClient.initial.start 3 none w0
    let s2 := s1.1.start 3 none s1.2
    s1.2.loops.length = 1 ∧ s1.2.threads = 1 ∧
      s2.2.loops.length = 2 ∧ s2.2.threads = 2 :=
  ⟨rfl, rfl, rfl, rfl⟩

/-- C7: `init` stores the base url, which `_make_full_url` thereafter
prefixes verbatim to every path by plain concatenation; the proxy is set to
`http://host:port` exactly when the host is non-empty and the port
non-zero, and stays `None` otherwise (on a freshly constructed client). -/
theorem init_stores_base_url_and_proxy (url_base proxy_host : String)
    (proxy_port : Nat) (path : String) :
    let c : RestClient :=
      RestClient.init RestClient.initial url_base proxy_host proxy_port
    c.url_base = url_base ∧
    RestClient.make_full_url c path = url_base ++ path ∧
    (proxy_host ≠ "" ∧ proxy_port ≠ 0 →
      c.proxy = some ("http://" ++ proxy_host ++ ":" ++ toString proxy_port)) ∧
    (¬(proxy_host ≠ "" ∧ proxy_port ≠ 0) → c.proxy = none) := by
  unfold RestClient.init RestClient.initial RestClient.make_full_url
  by_cases h : proxy_host ≠ "" ∧ proxy_port ≠ 0 <;> simp [h]

/-- Witness for C7 at concrete inputs: a host/port pair yields the
formatted proxy, an absent pair leaves the proxy unset. -/
theorem init_stores_base_url_and_proxy_witness :
    (RestClient.initial.init "https://api.example.com" "proxyhost" 8080).proxy
      = some ("http://" ++ "proxyhost" ++ ":" ++ toString (8080 : Nat)) ∧
    (RestClient.initial.init "https://api.example.com" "" 0).proxy = none :=
  ⟨(init_stores_base_url_and_proxy "https://api.example.com" "proxyhost" 8080
      "/ping").2.2.1 (by decide),
   (init_stores_base_url_and_proxy "https://api.example.com" "" 0
      "/ping").2.2.2 (by decide)⟩

/-- C8: the base-class `sign` is the identity — it returns the request
itself, every field unchanged. -/
theorem sign_default_identity (c : RestClient) (r : Request) :
    c.sign r = r ∧ (c.sign r).method = r.method ∧ (c.sign r).path = r.path ∧
    (c.sign r).params = r.params ∧ (c.sign r).data = r.data ∧
    (c.sign r).headers = r.headers ∧ (c.sign r).callback = r.callback ∧
    (c.sign r).on_failed = r.on_failed ∧ (c.sign r).on_error = r.on_error ∧
    (c.sign r).extra = r.extra ∧ (c.sign r).response = r.response :=
  ⟨rfl, rfl, rfl, rfl, rfl, rfl, rfl, rfl, rfl, rfl, rfl⟩

/-- C9: the string rendering of a request shows the literal `terminated` in
the status slot (and an empty response slot) while no response is attached,
and the numeric status code (and the response text) after one is attached;
the remaining rendered fields — method, path, headers, params, data — are
the same template arguments in both renderings. -/
theorem request_str_terminated_then_status (r : Request) (resp : Response) :
    ({ r with response := none } : Request).str
      = requestTemplate r.method r.path "terminated"
          (pyStrDict r.headers) (pyStrDict r.params) (pyStrData r.data) ""
    ∧ ({ r with response := some resp } : Request).str
      = requestTemplate r.method r.path (toString resp.status_code)
          (pyStrDict r.headers) (pyStrDict r.params) (pyStrData r.data)
          resp.text :=
  ⟨rfl, rfl⟩

end VnpyRest
